import Mathlib

/-!
Shallow embedding of the withdrawal / payout core of the marketplace backend
(repository `backened`, file `src/server.js` and the revisions in
`src/unnamed/part_000` .. `part_007`).

Monetary values are modelled as exact rationals; the JavaScript idiom
`+(x).toFixed(2)` is modelled by `round2`, rounding half-up to two decimal
places (the ECMAScript `toFixed` tie rule picks the larger candidate, i.e.
half-up for the positive currency amounts handled here).  Where a claim
turns on the direction in which a half-cent tie is rounded — the flat-fee
sum of C2 — the computation is additionally modelled in double precision
(`fl`, `flatFeeAmountDouble`, `flatNetPayoutAmountDouble` below), because
the exact decimal product 9 × 0.055 = 0.495 is a tie while the double
product 9 × fl(0.055) = 0.49499999999999999555910790149937 is not; every
other concrete input evaluated in this file is tie-free, with the
exact-decimal and double-precision results coinciding.
-/

namespace MarketBackend

/-- Rounding to 2 decimal places, half-up; models `+(value).toFixed(2)`
(and the equivalent `parseFloat(value.toFixed(2))`) from `src/server.js`. -/
def round2 (x : ℚ) : ℚ := (⌊x * 100 + 1 / 2⌋ : ℚ) / 100

/-! Fee constants, from `src/server.js` lines 199-202 (tiered revision)
and line 1382 (flat revision). -/

def WITHDRAWAL_THRESHOLD : ℚ := 100

def FIXED_FEE_BELOW_THRESHOLD : ℚ := 10

def FIXED_FEE_ABOVE_THRESHOLD : ℚ := 20

def AGENCY_FEE_RATE : ℚ := 35 / 1000

def WITHDRAWAL_FEE_RATE : ℚ := 55 / 1000

/-- `getTieredFixedFee` from `src/server.js` lines 204-208. -/
def getTieredFixedFee (amount : ℚ) : ℚ :=
  if amount < WITHDRAWAL_THRESHOLD then FIXED_FEE_BELOW_THRESHOLD
  else FIXED_FEE_ABOVE_THRESHOLD

/-- `calculateTotalFee` from `src/server.js` lines 210-214
(tiered policy: percentage fee plus fixed fee, rounded to 2 dp). -/
def calculateTotalFee (amount : ℚ) : ℚ :=
  round2 (amount * AGENCY_FEE_RATE + getTieredFixedFee amount)

/-- Net payout under the tiered revision, `src/server.js` line 432:
`+(amount - feeAmount).toFixed(2)`. -/
def tieredNetPayoutAmount (amount : ℚ) : ℚ :=
  round2 (amount - calculateTotalFee amount)

/-- Fee under the flat 5.5 percent revision, `src/server.js` line 1526
(also line 1189 and `part_007` line 223): `+(amount * RATE).toFixed(2)`,
modelled on the exact decimal product.  The double-precision computation
of the source agrees with this value at every amount whose exact product
avoids a half-cent tie; at tie amounts (9.00, 11.00, ...) the double
product falls just below the tie and rounds down where this idealization
rounds up — `flatFeeAmountDouble` below models the double computation
exactly, and every use of this definition elsewhere in this file is at a
tie-free amount where the two coincide. -/
def flatFeeAmount (amount : ℚ) : ℚ :=
  round2 (amount * WITHDRAWAL_FEE_RATE)

/-- Net payout under the flat revision, `src/server.js` line 1527
(also line 1188 and `part_007` line 222): rounded independently of the
fee: `+(amount * (1 - RATE)).toFixed(2)`, modelled on the exact decimal
product with the same tie caveat as `flatFeeAmount` — the double-faithful
version is `flatNetPayoutAmountDouble` below. -/
def flatNetPayoutAmount (amount : ℚ) : ℚ :=
  round2 (amount * (1 - WITHDRAWAL_FEE_RATE))

/-! JavaScript number domain.  `parseFloat` on a request body field yields a
double: NaN, an infinity, or a finite value (modelled as an exact rational).
This four-constructor type is what the validation code inspects. -/

/-- Result of `parseFloat` on the request `amount` field. -/
inductive JsNum where
  | nan : JsNum
  | inf : JsNum
  | ninf : JsNum
  | fin : ℚ → JsNum
deriving DecidableEq, Repr

/-- JavaScript `isNaN(n)` for a number `n`. -/
def JsNum.isNaNb : JsNum → Bool
  | .nan => true
  | _ => false

/-- JavaScript `n > 0`: false for NaN, true for Infinity. -/
def JsNum.gtZero : JsNum → Bool
  | .nan => false
  | .inf => true
  | .ninf => false
  | .fin q => decide (0 < q)

/-- JavaScript `a <= b` with NaN incomparable. -/
def JsNum.jsLe : JsNum → JsNum → Bool
  | .nan, _ => false
  | _, .nan => false
  | .ninf, _ => true
  | _, .inf => true
  | .inf, _ => false
  | .fin _, .ninf => false
  | .fin a, .fin b => decide (a ≤ b)

/-- `parsePositiveNumber` from `src/server.js` lines 220-223 (tiered / live
revision): `!isNaN(n) && n > 0 ? n : null`.  Note that it does NOT test
finiteness: `Infinity` passes. -/
def parsePositiveNumber (n : JsNum) : Option JsNum :=
  if !n.isNaNb && n.gtZero then some n else none

/-- `parsePositiveNumber` from `src/server.js` lines 1392-1397 (flat
stored-counter revision), which additionally rejects non-finite values. -/
def parsePositiveNumberFinite (n : JsNum) : Option ℚ :=
  match n with
  | .fin q => if 0 < q then some q else none
  | _ => none

/-- `calculateTotalFee` as executed on a raw JavaScript number: for
`Infinity` the percentage fee is `Infinity`, the sum is `Infinity`, and
`+("Infinity")` is again `Infinity`; for NaN everything stays NaN. -/
def calculateTotalFeeJs : JsNum → JsNum
  | .nan => .nan
  | .inf => .inf
  | .ninf => .ninf
  | .fin q => .fin (calculateTotalFee q)

/-- `isValidPhone` from `src/server.js` lines 216-218: the regular
expression accepts exactly 2547 or 2541 followed by eight decimal digits. -/
def isValidPhone (phone : String) : Bool :=
  let l := phone.toList
  l.length = 12 &&
    (l.take 4 = ['2', '5', '4', '7'] || l.take 4 = ['2', '5', '4', '1']) &&
    (l.drop 4).all Char.isDigit

/-- Error outcomes of the withdrawal request validation chain. -/
inductive WError where
  | missingSellerId : WError
  | invalidAmount : WError
  | invalidPhone : WError
  | feeExceedsAmount : WError
deriving DecidableEq, Repr

/-- Validation chain of the live/tiered withdrawal handler,
`src/server.js` lines 352-370: sellerId presence, then
`parsePositiveNumber` (NaN and sign only), then phone format, then the
`amount <= minFeeCheck` rejection.  A missing `sellerId` is modelled as the
falsy empty string.  The two commented branches are unreachable: a positive
infinite amount always fails the fee comparison (`Infinity <= Infinity`),
and NaN never leaves `parsePositiveNumber`. -/
def validateWithdrawal (sellerId : String) (amountRaw : JsNum)
    (phone : String) : Except WError ℚ :=
  if sellerId = "" then .error .missingSellerId
  else
    match parsePositiveNumber amountRaw with
    | none => .error .invalidAmount
    | some n =>
      if !isValidPhone phone then .error .invalidPhone
      else if n.jsLe (calculateTotalFeeJs n) then .error .feeExceedsAmount
      else
        match n with
        | .fin q => .ok q
        | .inf => .error .feeExceedsAmount
        | .ninf => .error .invalidAmount
        | .nan => .error .invalidAmount

/-! JavaScript value model for the dynamic `items` field of an order
document.  `vnull` stands for both `null` and `undefined` (the two behave
identically in every expression of the resolver: both are falsy and both
yield `undefined` under the optional-chaining field access the code uses).
Only finite numbers occur as stored document fields in the model. -/

/-- Dynamic JavaScript value, as far as the order aggregation inspects it. -/
inductive JVal where
  | vnull : JVal
  | num : ℚ → JVal
  | str : String → JVal
  | jbool : Bool → JVal
  | arr : List JVal → JVal
  | obj : List (String × JVal) → JVal

/-- JavaScript truthiness test, negated: models `!items`. -/
def JVal.falsy : JVal → Bool
  | .vnull => true
  | .num q => decide (q = 0)
  | .str s => s = ""
  | .jbool b => !b
  | .arr _ => false
  | .obj _ => false

/-- Field access with optional chaining: `v?.k`.  On a non-object the
result is `undefined` (for the primitives of this model no own property
named `sellerId`, `price` or `quantity` exists). -/
def JVal.getField : JVal → String → JVal
  | .obj fields, k =>
    match fields.find? (fun p => p.1 = k) with
    | some p => p.2
    | none => .vnull
  | _, _ => .vnull

/-- Strict equality `v === s` of a dynamic value against a known string:
true exactly when `v` is that string. -/
def JVal.isStrictEqStr : JVal → String → Bool
  | .str t, s => t = s
  | _, _ => false

/-- Models `Number(x) || 0` from the aggregation loop: a finite number
contributes its value (0 stays 0 through `|| 0`), `true` coerces to 1, and
everything else in the model (missing, null, strings, false, arrays,
objects) contributes 0 — non-numeric strings and plain objects coerce to
NaN in JavaScript and `NaN || 0` is 0.  Numeric strings and singleton
arrays, which JavaScript would coerce to their numeric value, are outside
this model. -/
def numberOr0 : JVal → ℚ
  | .num q => q
  | .jbool b => if b then 1 else 0
  | _ => 0

/-- Contribution of one line item, `src/server.js` lines 388-392: an item
counts only when `item?.sellerId === sellerId` (strict equality against
the seller identifier string), and contributes
`(Number(item.price) || 0) * (Number(item.quantity) || 0)`. -/
def itemContribution (sellerId : String) (item : JVal) : ℚ :=
  if (item.getField "sellerId").isStrictEqStr sellerId then
    numberOr0 (item.getField "price") * numberOr0 (item.getField "quantity")
  else 0

/-- Revenue that one order document contributes to a seller,
`src/server.js` lines 380-410: falsy `items` contribute nothing; an array
is iterated element-wise; any other object is iterated over
`Object.values`; the remaining (primitive) case treats `items` itself as
the single item. -/
def orderItemsRevenue (sellerId : String) (items : JVal) : ℚ :=
  if items.falsy then 0
  else
    match items with
    | .arr l => (l.map (itemContribution sellerId)).sum
    | .obj fields => (fields.map (fun p => itemContribution sellerId p.2)).sum
    | other => itemContribution sellerId other

/-- Revenue of one order as worded by the specification (section 4.1):
line items may be encoded as a list, a keyed mapping, or a single bare
item, and every item belonging to the seller contributes price times
quantity.  A bare item is an object carrying its own `sellerId` field; a
keyed mapping is an object whose values are the items.  Second definition
kept for comparison with `orderItemsRevenue`, which is the one taken from
the source. -/
def orderItemsRevenueSpec (sellerId : String) (items : JVal) : ℚ :=
  if items.falsy then 0
  else
    match items with
    | .arr l => (l.map (itemContribution sellerId)).sum
    | .obj fields =>
      if (fields.find? (fun p => p.1 = "sellerId")).isSome then
        itemContribution sellerId (.obj fields)
      else (fields.map (fun p => itemContribution sellerId p.2)).sum
    | other => itemContribution sellerId other

/-- Order document, as far as the withdrawal flow reads it. -/
structure MarketOrder where
  involvedSellerIds : List String
  paymentStatus : String
  items : JVal

/-- Live revenue aggregation, `src/server.js` lines 373-410: the Firestore
query filters orders by `involvedSellerIds array-contains sellerId` and
`paymentStatus == "paid"`; the loop sums the per-order item revenue. -/
def liveTotalRevenue (sellerId : String) (orders : List MarketOrder) : ℚ :=
  ((orders.filter (fun o =>
      sellerId ∈ o.involvedSellerIds && o.paymentStatus = "paid")).map
    (fun o => orderItemsRevenue sellerId o.items)).sum

/-- Ledger lookup and balance resolution, `src/server.js` lines 412-420:
`totalWithdrawn || 0` for a missing ledger document (or missing field),
subtracted from the live revenue. -/
def resolveAvailableBalance (sellerId : String) (orders : List MarketOrder)
    (sellerLedgers : String → Option ℚ) : ℚ :=
  liveTotalRevenue sellerId orders - (sellerLedgers sellerId).getD 0

/-- Validation chain as worded by the specification (section 4.5): sellerId
present, then amount a positive FINITE number, then phone format, then
amount strictly greater than the computed fee.  Second definition kept for
comparison with `validateWithdrawal`, which is the one taken from the
source. -/
def validateWithdrawalSpec (sellerId : String) (amountRaw : JsNum)
    (phone : String) : Except WError ℚ :=
  if sellerId = "" then .error .missingSellerId
  else
    match amountRaw with
    | .fin q =>
      if ¬ (0 < q) then .error .invalidAmount
      else if !isValidPhone phone then .error .invalidPhone
      else if q ≤ calculateTotalFee q then .error .feeExceedsAmount
      else .ok q
    | _ => .error .invalidAmount

/-! Withdrawal records, lifecycle states, and the event trace of a
handler run. -/

/-- Lifecycle status of a Withdrawal Record.  The first three literals are
the ones written by the source (`PENDING_PAYOUT`, `PAYOUT_INITIATED`,
`PAYOUT_FAILED`).  `PAYOUT_FAILED_REVERSED` appears in the specification
state machine but in no revision of the source; it is included so that
claims about it can be stated. -/
inductive WStatus where
  | PENDING_PAYOUT : WStatus
  | PAYOUT_INITIATED : WStatus
  | PAYOUT_FAILED : WStatus
  | PAYOUT_FAILED_REVERSED : WStatus
deriving DecidableEq, Repr

/-- Withdrawal Record document (collection `withdrawals`); covers the
fields common to the live revision (lines 444-452) and the stored-counter
revision (lines 1542-1550) of `src/server.js`. -/
structure WithdrawalRec where
  sellerId : String
  amount : ℚ
  feeAmount : ℚ
  netPayout : ℚ
  phoneNumber : String
  status : WStatus
  trackingId : Option String := none
  intasendError : Option String := none
deriving DecidableEq, Repr

/-- Outcome of the single external payout dispatch: the provider either
returns a response whose `tracking_id` may be absent (`|| null`), or
throws with an error detail. -/
inductive PayoutOutcome where
  | ok : Option String → PayoutOutcome
  | fail : String → PayoutOutcome
deriving DecidableEq, Repr

/-- One observable effect of a withdrawal handler run: document writes,
the ledger increment, and the external payout call.  `deleteWithdrawal`
is never emitted by any handler; it is included so that the absence of
record deletion is a statement, not a vacuity of the vocabulary. -/
inductive Event where
  | createWithdrawal : Nat → WithdrawalRec → Event
  | updateStatus : Nat → WStatus → Option String → Option String → Event
  | ledgerIncrement : String → ℚ → Event
  | payoutCall : String → ℚ → Event
  | deleteWithdrawal : Nat → Event
deriving DecidableEq, Repr

/-- Payload of the `data` field of a success response,
`src/server.js` lines 502-512. -/
structure RespData where
  requestedAmount : ℚ
  fee : ℚ
  netPayout : ℚ
  trackingId : Option String
  withdrawalId : Option Nat
deriving DecidableEq, Repr

/-- HTTP response as the withdrawal handlers build it: a status code, the
`success` flag, a message, and the optional `data` object.  Interpolated
message fragments (computed fee values inside template strings) are
elided; the constant message text is kept. -/
structure HttpResponse where
  status : Nat
  success : Bool
  message : String
  data : Option RespData
deriving DecidableEq, Repr

/-- Response for each validation error of the live handler,
`src/server.js` lines 352-370: all are HTTP 400 with `success: false` and
no `data`. -/
def validationResponse : WError → HttpResponse
  | .missingSellerId => ⟨400, false, "Missing sellerId", none⟩
  | .invalidAmount => ⟨400, false, "Invalid amount", none⟩
  | .invalidPhone => ⟨400, false, "Invalid phone number", none⟩
  | .feeExceedsAmount =>
    ⟨400, false, "Requested amount must be greater than the total fee", none⟩

/-- Document-store state shared by the live revision: order documents,
the per-seller ledger (`sellerLedgers`, value `totalWithdrawn`), and the
withdrawal records keyed by generated identifier. -/
structure StoreState where
  orders : List MarketOrder
  sellerLedgers : String → Option ℚ
  withdrawals : List (Nat × WithdrawalRec)

/-- Application of one event to the store.  `updateStatus` merges the new
status, tracking identifier and error detail into the addressed record;
`ledgerIncrement` models `FieldValue.increment` with merge (a missing
ledger document is created at the incremented value); `payoutCall` is the
external call and touches nothing. -/
def applyEvent (st : StoreState) : Event → StoreState
  | .createWithdrawal id rec1 => { st with withdrawals := st.withdrawals ++ [(id, rec1)] }
  | .updateStatus id newStatus tid err =>
    { st with withdrawals := st.withdrawals.map (fun p =>
        if p.1 = id then
          (p.1, { p.2 with
                  status := newStatus,
                  trackingId := tid.or p.2.trackingId,
                  intasendError := err.or p.2.intasendError })
        else p) }
  | .ledgerIncrement sellerId amt =>
    { st with sellerLedgers := fun s =>
        if s = sellerId then some ((st.sellerLedgers sellerId).getD 0 + amt)
        else st.sellerLedgers s }
  | .payoutCall _ _ => st
  | .deleteWithdrawal id =>
    { st with withdrawals := st.withdrawals.filter (fun p => p.1 ≠ id) }

/-- Folds a trace of events over the store. -/
def applyEvents (st : StoreState) (events : List Event) : StoreState :=
  events.foldl applyEvent st

/-- The live/tiered withdrawal handler, `src/server.js` lines 347-517
(`POST /api/seller/withdraw`, revision aggregating revenue from paid
orders).  Inputs beyond the request body: the store, the generated record
identifier, and the outcome of the single payout dispatch.  Returns the
HTTP response and the trace of effects in program order. -/
def sellerWithdrawLive (sellerId : String) (amountRaw : JsNum) (phone : String)
    (st : StoreState) (newId : Nat) (outcome : PayoutOutcome) :
    HttpResponse × List Event :=
  match validateWithdrawal sellerId amountRaw phone with
  | .error e => (validationResponse e, [])
  | .ok amount =>
    let netAvailableRevenue := resolveAvailableBalance sellerId st.orders st.sellerLedgers
    if netAvailableRevenue < amount then
      (⟨400, false, "Insufficient balance", none⟩, [])
    else
      let feeAmount := calculateTotalFee amount
      let netPayoutAmount := round2 (amount - feeAmount)
      if netPayoutAmount ≤ 0 then
        (⟨400, false, "Net payout is KSH 0.00 or less after the fee", none⟩, [])
      else
        let rec0 : WithdrawalRec :=
          { sellerId := sellerId, amount := amount, feeAmount := feeAmount,
            netPayout := netPayoutAmount, phoneNumber := phone,
            status := .PENDING_PAYOUT }
        match outcome with
        | .fail err =>
          (⟨502, false, "Payout provider error", none⟩,
           [.createWithdrawal newId rec0,
            .payoutCall phone netPayoutAmount,
            .updateStatus newId .PAYOUT_FAILED none (some err)])
        | .ok trackingId =>
          (⟨200, true, "Withdrawal initiated",
            some { requestedAmount := amount, fee := feeAmount,
                   netPayout := netPayoutAmount, trackingId := trackingId,
                   withdrawalId := some newId }⟩,
           [.createWithdrawal newId rec0,
            .payoutCall phone netPayoutAmount,
            .updateStatus newId .PAYOUT_INITIATED trackingId none,
            .ledgerIncrement sellerId amount])

/-- Store state of the stored-counter revision: the `users` collection
maps a seller to the stored `revenue` counter (`none` when the seller
document does not exist), plus the withdrawal records. -/
structure UserStoreState where
  users : String → Option ℚ
  withdrawals : List (Nat × WithdrawalRec)

/-- The stored-counter withdrawal handler, `src/server.js` lines
1505-1615 (flat 5.5 percent revision with pre-emptive balance deduction).
Sequential model: the transaction body re-reads the same state it was
entered with, so the pre-transaction balance check and the in-transaction
check coincide.  On payout failure the record is marked `PAYOUT_FAILED`
with the error detail and the handler returns 502 — the deducted balance
is NOT re-credited (the `part_007` revision of the same handler notes
that manual reversal may be needed). -/
def sellerWithdrawStored (sellerId : String) (amountRaw : JsNum)
    (phone : String) (st : UserStoreState) (newId : Nat)
    (outcome : PayoutOutcome) : HttpResponse × UserStoreState :=
  if sellerId = "" then (⟨400, false, "Missing sellerId.", none⟩, st)
  else
    match parsePositiveNumberFinite amountRaw with
    | none => (⟨400, false, "Invalid amount.", none⟩, st)
    | some amount =>
      if !isValidPhone phone then (⟨400, false, "Invalid phone number.", none⟩, st)
      else
        match st.users sellerId with
        | none => (⟨404, false, "Seller not found.", none⟩, st)
        | some currentRevenue =>
          if currentRevenue < amount then
            (⟨400, false, "Insufficient balance.", none⟩, st)
          else
            let feeAmount := flatFeeAmount amount
            let netPayoutAmount := flatNetPayoutAmount amount
            let newBalance := round2 (currentRevenue - amount)
            let rec0 : WithdrawalRec :=
              { sellerId := sellerId, amount := amount, feeAmount := feeAmount,
                netPayout := netPayoutAmount, phoneNumber := phone,
                status := .PENDING_PAYOUT }
            let st1 : UserStoreState :=
              { users := fun s => if s = sellerId then some newBalance else st.users s,
                withdrawals := st.withdrawals ++ [(newId, rec0)] }
            match outcome with
            | .fail err =>
              (⟨502, false,
                "Payout provider error. Withdrawal created but payout failed.", none⟩,
               { st1 with withdrawals := st1.withdrawals.map (fun p =>
                   if p.1 = newId then
                     (p.1, { p.2 with
                             status := .PAYOUT_FAILED,
                             intasendError := some err })
                   else p) })
            | .ok trackingId =>
              (⟨200, true, "Withdrawal initiated",
                some { requestedAmount := amount, fee := feeAmount,
                       netPayout := netPayoutAmount, trackingId := trackingId,
                       withdrawalId := some newId }⟩,
               { st1 with withdrawals := st1.withdrawals.map (fun p =>
                   if p.1 = newId then
                     (p.1, { p.2 with
                             status := .PAYOUT_INITIATED,
                             trackingId := trackingId })
                   else p) })

/-! Helper lemmas about rounding and validation. -/

/-- Cent precision: the value is an integral number of hundredths of the
currency unit. -/
def isCents (q : ℚ) : Prop := ∃ n : ℤ, q = n / 100

/-- Every output of `round2` is a whole number of cents. -/
lemma round2_isCents (x : ℚ) : isCents (round2 x) :=
  ⟨⌊x * 100 + 1 / 2⌋, rfl⟩

/-- `round2` fixes whole-cent values. -/
lemma round2_intCast_div (n : ℤ) : round2 ((n : ℚ) / 100) = (n : ℚ) / 100 := by
  unfold round2
  have h : ((n : ℚ) / 100) * 100 + 1 / 2 = (n : ℚ) + (1 / 2 : ℚ) := by
    field_simp
  rw [h, Int.floor_int_add]
  norm_num

/-- `round2` is monotone. -/
lemma round2_mono {x y : ℚ} (h : x ≤ y) : round2 x ≤ round2 y := by
  unfold round2
  have h1 : (⌊x * 100 + 1 / 2⌋ : ℤ) ≤ ⌊y * 100 + 1 / 2⌋ :=
    Int.floor_le_floor (by linarith)
  have h2 : ((⌊x * 100 + 1 / 2⌋ : ℤ) : ℚ) ≤ ((⌊y * 100 + 1 / 2⌋ : ℤ) : ℚ) := by
    exact_mod_cast h1
  linarith

/-- The tiered total fee of a positive amount is at least the smaller
fixed fee of 10. -/
lemma ten_le_calculateTotalFee {a : ℚ} (h : 0 < a) : 10 ≤ calculateTotalFee a := by
  have h10 : round2 10 = 10 := by
    have := round2_intCast_div 1000
    norm_num at this
    simpa using this
  have harg : (10 : ℚ) ≤ a * AGENCY_FEE_RATE + getTieredFixedFee a := by
    have hrate : 0 < a * AGENCY_FEE_RATE := by
      have : (0 : ℚ) < AGENCY_FEE_RATE := by norm_num [AGENCY_FEE_RATE]
      positivity
    have hfix : (10 : ℚ) ≤ getTieredFixedFee a := by
      unfold getTieredFixedFee FIXED_FEE_BELOW_THRESHOLD FIXED_FEE_ABOVE_THRESHOLD
      split <;> norm_num
    linarith
  calc (10 : ℚ) = round2 10 := h10.symm
    _ ≤ calculateTotalFee a := round2_mono harg

/-- Characterization of the live-revision validation chain: a request is
accepted exactly when the sellerId is non-empty, the amount is a finite
positive number, the phone matches, and the amount strictly exceeds the
tiered fee. -/
lemma validateWithdrawal_ok_iff (s p : String) (a : JsNum) (q : ℚ) :
    validateWithdrawal s a p = .ok q ↔
      s ≠ "" ∧ a = .fin q ∧ 0 < q ∧ isValidPhone p = true ∧
        calculateTotalFee q < q := by
  constructor
  · intro h
    unfold validateWithdrawal at h
    split at h
    · cases h
    · rename_i hs
      split at h
      · cases h
      · rename_i n hn
        split at h
        · cases h
        · rename_i hp
          split at h
          · cases h
          · rename_i hfee
            split at h
            · rename_i x
              cases h
              unfold parsePositiveNumber at hn
              split at hn
              · rename_i hcond
                cases hn
                simp only [JsNum.isNaNb, JsNum.gtZero, Bool.not_false,
                  Bool.true_and, decide_eq_true_eq] at hcond
                simp only [JsNum.jsLe, calculateTotalFeeJs,
                  decide_eq_true_eq] at hfee
                refine ⟨hs, rfl, hcond, ?_, not_le.mp hfee⟩
                simpa using hp
              · cases hn
            · cases h
            · cases h
            · cases h
  · rintro ⟨hs, rfl, hq, hp, hfee⟩
    unfold validateWithdrawal parsePositiveNumber
    simp [hs, hq, hp, JsNum.isNaNb, JsNum.gtZero, JsNum.jsLe,
      calculateTotalFeeJs, not_le.mpr hfee]

/-- Characterization of the specification-worded validation chain: it
accepts exactly the same requests with the same parsed amount. -/
lemma validateWithdrawalSpec_ok_iff (s p : String) (a : JsNum) (q : ℚ) :
    validateWithdrawalSpec s a p = .ok q ↔
      s ≠ "" ∧ a = .fin q ∧ 0 < q ∧ isValidPhone p = true ∧
        calculateTotalFee q < q := by
  constructor
  · intro h
    unfold validateWithdrawalSpec at h
    split at h
    · cases h
    · rename_i hs
      split at h
      · rename_i x
        split at h
        · cases h
        · rename_i hx
          split at h
          · cases h
          · rename_i hp
            split at h
            · cases h
            · rename_i hfee
              cases h
              refine ⟨hs, rfl, not_not.mp hx, by simpa using hp, not_le.mp hfee⟩
      · cases h
  · rintro ⟨hs, rfl, hq, hp, hfee⟩
    unfold validateWithdrawalSpec
    simp [hs, hq, hp, not_le.mpr hfee]

/-! Double-precision model of the flat fee computation.  The flat-fee sum
claim (C2) depends on how half-cent ties are rounded, and the source
computes with binary64 doubles, not exact decimals: the double nearest
0.055 is slightly above it, yet the double products 9 × fl(0.055) and
9 × (1 - fl(0.055)) land slightly BELOW the decimal ties 0.495 and 8.505,
so `toFixed(2)` rounds them down and the fee and net sum to 8.99 — one
cent short — while at 25 both products land above their ties and the sum
is 25.01, one cent over. -/

/-- Round-to-nearest conversion of a positive rational to an IEEE-754
binary64 double: the exponent is `Int.log 2` of the value, the 53-bit
significand is obtained by rounding the scaled value, and the result is
rescaled.  A tie here rounds up while IEEE rounds it to even, but none of
the six roundings performed in this file is a tie, so the difference never
shows; zero and negative inputs (which do not occur in the modelled
computations) map to 0, and overflow and subnormals are outside the
modelled range. -/
def fl (q : ℚ) : ℚ :=
  if q ≤ 0 then 0
  else (⌊q / (2 : ℚ) ^ (Int.log 2 q - 52) + 1 / 2⌋ : ℚ) * (2 : ℚ) ^ (Int.log 2 q - 52)

/-- Uniqueness of the binary exponent. -/
lemma intLog_eq {q : ℚ} {e : ℤ} (hq : 0 < q) (h1 : (2 : ℚ) ^ e ≤ q)
    (h2 : q < (2 : ℚ) ^ (e + 1)) : Int.log 2 q = e := by
  have ha := (Int.zpow_le_iff_le_log (by norm_num) hq).mp h1
  have hb := (Int.lt_zpow_iff_log_lt (by norm_num) hq).mp h2
  exact le_antisymm (Int.lt_add_one_iff.mp hb) ha

/-- Evaluation rule for `fl` once the binary exponent is known. -/
lemma fl_eq {q : ℚ} {e : ℤ} (hq : 0 < q) (h1 : (2 : ℚ) ^ e ≤ q)
    (h2 : q < (2 : ℚ) ^ (e + 1)) :
    fl q = (⌊q / (2 : ℚ) ^ (e - 52) + 1 / 2⌋ : ℚ) * (2 : ℚ) ^ (e - 52) := by
  unfold fl
  rw [if_neg (not_le.mpr hq), intLog_eq hq h1 h2]

/-- The double the source literal `0.055` (`WITHDRAWAL_FEE_RATE`,
`src/server.js` line 1382) denotes: 7926335344172073 / 2^57, slightly
above 0.055. -/
def WITHDRAWAL_FEE_RATE_DOUBLE : ℚ := fl (55 / 1000)

/-- The double computed by `1 - WITHDRAWAL_FEE_RATE` in the source
(`src/server.js` lines 1188, 1527): 8511803295730237 / 2^53, slightly
below 0.945. -/
def NET_RATE_DOUBLE : ℚ := fl (1 - WITHDRAWAL_FEE_RATE_DOUBLE)

/-- Fee under the flat revision as the source computes it in double
precision: the product of the (exactly representable) amount and the
double fee rate is rounded to the nearest double, then `toFixed(2)`
rounds the exact value of that double to cents. -/
def flatFeeAmountDouble (amount : ℚ) : ℚ :=
  round2 (fl (amount * WITHDRAWAL_FEE_RATE_DOUBLE))

/-- Net payout under the flat revision as the source computes it in
double precision, rounded to cents independently of the fee. -/
def flatNetPayoutAmountDouble (amount : ℚ) : ℚ :=
  round2 (fl (amount * NET_RATE_DOUBLE))

/-- Value of the double fee rate. -/
lemma WITHDRAWAL_FEE_RATE_DOUBLE_eq :
    WITHDRAWAL_FEE_RATE_DOUBLE = 7926335344172073 / 2 ^ 57 := by
  unfold WITHDRAWAL_FEE_RATE_DOUBLE
  rw [fl_eq (e := -5) (by norm_num) (by norm_num) (by norm_num)]
  norm_num

/-- Value of the double net rate. -/
lemma NET_RATE_DOUBLE_eq : NET_RATE_DOUBLE = 8511803295730237 / 2 ^ 53 := by
  unfold NET_RATE_DOUBLE
  rw [WITHDRAWAL_FEE_RATE_DOUBLE_eq]
  rw [fl_eq (e := -1) (by norm_num) (by norm_num) (by norm_num)]
  norm_num

/-- At amount 9 the double product is 0.49499999999999999555910790149937,
just below the half-cent tie, so the fee rounds DOWN to 0.49 (the source
prints 0.49 where the exact-decimal idealization would give 0.50). -/
lemma flatFeeAmountDouble_nine : flatFeeAmountDouble 9 = 49 / 100 := by
  unfold flatFeeAmountDouble
  rw [WITHDRAWAL_FEE_RATE_DOUBLE_eq]
  rw [fl_eq (e := -2) (by norm_num) (by norm_num) (by norm_num)]
  norm_num [round2]

/-- At amount 9 the double net product is also just below its half-cent
tie 8.505, so the net rounds down to 8.50. -/
lemma flatNetPayoutAmountDouble_nine : flatNetPayoutAmountDouble 9 = 850 / 100 := by
  unfold flatNetPayoutAmountDouble
  rw [NET_RATE_DOUBLE_eq]
  rw [fl_eq (e := 3) (by norm_num) (by norm_num) (by norm_num)]
  norm_num [round2]

/-- At amount 25 the double fee product lies just above the tie 1.375 and
rounds up to 1.38, agreeing with the exact-decimal value. -/
lemma flatFeeAmountDouble_twentyfive : flatFeeAmountDouble 25 = 138 / 100 := by
  unfold flatFeeAmountDouble
  rw [WITHDRAWAL_FEE_RATE_DOUBLE_eq]
  rw [fl_eq (e := 0) (by norm_num) (by norm_num) (by norm_num)]
  norm_num [round2]

/-- At amount 25 the double net product lies just above the tie 23.625
and rounds up to 23.63. -/
lemma flatNetPayoutAmountDouble_twentyfive :
    flatNetPayoutAmountDouble 25 = 2363 / 100 := by
  unfold flatNetPayoutAmountDouble
  rw [NET_RATE_DOUBLE_eq]
  rw [fl_eq (e := 4) (by norm_num) (by norm_num) (by norm_num)]
  norm_num [round2]

/-! Claim theorems. -/

/-- C2 counterexample: under the flat 5.5 percent policy the fee and the
net payout are rounded to cents independently from the double-precision
products, and at the requested amount 25.00 the source computes fee 1.38
and net 23.63, which sum to 25.01, not 25.00. -/
theorem C2_counterexample_flat_sum_off_by_one_cent :
    flatFeeAmountDouble 25 = 138 / 100 ∧
    flatNetPayoutAmountDouble 25 = 2363 / 100 ∧
    flatFeeAmountDouble 25 + flatNetPayoutAmountDouble 25 ≠ 25 := by
  refine ⟨flatFeeAmountDouble_twentyfive, flatNetPayoutAmountDouble_twentyfive, ?_⟩
  rw [flatFeeAmountDouble_twentyfive, flatNetPayoutAmountDouble_twentyfive]
  norm_num

/-- C2 (amended): for every cent-precision amount `a`, under the tiered
policy the fee plus the net payout equals `a` exactly (the net is computed
as the rounded difference); under the flat policy the fee and the net are
rounded to cents independently from the double-precision products and the
identity fails in both directions: at 25.00 the sum is one cent over
(25.01) and at 9.00, where both double products fall just below their
half-cent ties, the sum is one cent short (8.99). -/
theorem C2_fee_plus_net_reconstructs_amount (a : ℚ) (h : isCents a) :
    calculateTotalFee a + tieredNetPayoutAmount a = a ∧
    flatFeeAmountDouble 25 + flatNetPayoutAmountDouble 25 = 25 + 1 / 100 ∧
    flatFeeAmountDouble 9 + flatNetPayoutAmountDouble 9 = 9 - 1 / 100 := by
  obtain ⟨k, rfl⟩ := h
  refine ⟨?_, ?_, ?_⟩
  · obtain ⟨m, hm⟩ := round2_isCents ((k : ℚ) / 100 * AGENCY_FEE_RATE +
      getTieredFixedFee ((k : ℚ) / 100))
    unfold tieredNetPayoutAmount
    rw [show calculateTotalFee ((k : ℚ) / 100) = (m : ℚ) / 100 from hm]
    have hdiff : (k : ℚ) / 100 - (m : ℚ) / 100 = ((k - m : ℤ) : ℚ) / 100 := by
      push_cast
      ring
    rw [hdiff, round2_intCast_div]
    push_cast
    ring
  · rw [flatFeeAmountDouble_twentyfive, flatNetPayoutAmountDouble_twentyfive]
    norm_num
  · rw [flatFeeAmountDouble_nine, flatNetPayoutAmountDouble_nine]
    norm_num

/-- C2 witness: the amended statement applied at the cent amount 25. -/
theorem C2_fee_plus_net_reconstructs_amount_witness :
    calculateTotalFee 25 + tieredNetPayoutAmount 25 = 25 ∧
    flatFeeAmountDouble 25 + flatNetPayoutAmountDouble 25 = 25 + 1 / 100 ∧
    flatFeeAmountDouble 9 + flatNetPayoutAmountDouble 9 = 9 - 1 / 100 :=
  C2_fee_plus_net_reconstructs_amount 25 ⟨2500, by norm_num⟩

/-- C6: the tiered fee is the 3.5 percent agency rate plus the fixed fee
of 10 below the threshold 100 and 20 at or above it, rounded to two
decimals; a withdrawal of 50 yields fee 11.75 and net payout 38.25 and is
accepted by the validation chain (so it passes the amount-greater-than-fee
check). -/
theorem C6_tiered_fee_formula :
    (∀ a : ℚ, calculateTotalFee a =
      round2 (a * (35 / 1000) + (if a < 100 then 10 else 20))) ∧
    calculateTotalFee 50 = 1175 / 100 ∧
    tieredNetPayoutAmount 50 = 3825 / 100 ∧
    validateWithdrawal "seller1" (JsNum.fin 50) "254712345678" = .ok 50 := by
  refine ⟨fun a => rfl, ?_, ?_, ?_⟩
  · norm_num [calculateTotalFee, getTieredFixedFee, round2, AGENCY_FEE_RATE,
      WITHDRAWAL_THRESHOLD, FIXED_FEE_BELOW_THRESHOLD, FIXED_FEE_ABOVE_THRESHOLD]
  · norm_num [tieredNetPayoutAmount, calculateTotalFee, getTieredFixedFee,
      round2, AGENCY_FEE_RATE, WITHDRAWAL_THRESHOLD, FIXED_FEE_BELOW_THRESHOLD,
      FIXED_FEE_ABOVE_THRESHOLD]
  · rw [validateWithdrawal_ok_iff]
    refine ⟨by simp, rfl, by norm_num, by simp +decide [isValidPhone], ?_⟩
    norm_num [calculateTotalFee, getTieredFixedFee, round2, AGENCY_FEE_RATE,
      WITHDRAWAL_THRESHOLD, FIXED_FEE_BELOW_THRESHOLD, FIXED_FEE_ABOVE_THRESHOLD]

/-- C7 counterexample: the claimed validation order checks that the amount
is a positive FINITE number before the phone format, so a request with
amount `Infinity` and a malformed phone would be rejected as an invalid
amount; the code checks only NaN and sign at that step, lets `Infinity`
through, and rejects this request as an invalid phone instead. -/
theorem C7_counterexample_nonfinite_passes_amount_check :
    validateWithdrawal "s1" JsNum.inf "0712345678" = .error .invalidPhone ∧
      validateWithdrawalSpec "s1" JsNum.inf "0712345678" = .error .invalidAmount := by
  constructor
  · simp +decide [validateWithdrawal, parsePositiveNumber, JsNum.isNaNb,
      JsNum.gtZero, isValidPhone]
  · simp [validateWithdrawalSpec]

/-- C7 (amended): validation is fail-fast in the order sellerId present,
then amount parses to a positive number (NaN and sign only — finiteness is
NOT tested at this step), then phone format, then amount strictly greater
than the fee; a positive non-finite amount is rejected by the later fee
comparison instead, so the code accepts exactly the same requests as the
spec-worded chain (with the same parsed amount), and every rejected
request gets a 400 response with no side effect: the handler emits no
event, so no record is created and no balance or ledger write happens. -/
theorem C7_validation_fail_fast_no_side_effects :
    (∀ (s p : String) (a : JsNum),
      (validateWithdrawal s a p).toOption = (validateWithdrawalSpec s a p).toOption) ∧
    (∀ (s p : String) (a : JsNum) (q : ℚ), validateWithdrawal s a p = .ok q →
      s ≠ "" ∧ a = .fin q ∧ 0 < q ∧ isValidPhone p = true ∧
        calculateTotalFee q < q) ∧
    (∀ (s p : String) (a : JsNum) (e : WError) (st : StoreState)
        (newId : Nat) (outcome : PayoutOutcome),
      validateWithdrawal s a p = .error e →
        sellerWithdrawLive s a p st newId outcome = (validationResponse e, []) ∧
          (validationResponse e).status = 400 ∧
          applyEvents st (sellerWithdrawLive s a p st newId outcome).2 = st) := by
  refine ⟨?_, ?_, ?_⟩
  · intro s p a
    cases hc : validateWithdrawal s a p with
    | ok q =>
      rw [validateWithdrawal_ok_iff] at hc
      rw [show validateWithdrawalSpec s a p = .ok q from
        (validateWithdrawalSpec_ok_iff s p a q).mpr hc]
    | error e =>
      cases hs : validateWithdrawalSpec s a p with
      | error f => rfl
      | ok q =>
        rw [validateWithdrawalSpec_ok_iff] at hs
        rw [← validateWithdrawal_ok_iff s p a q] at hs
        rw [hs] at hc
        cases hc
  · intro s p a q h
    exact (validateWithdrawal_ok_iff s p a q).mp h
  · intro s p a e st newId outcome h
    refine ⟨?_, ?_, ?_⟩
    · unfold sellerWithdrawLive
      rw [h]
    · cases e <;> rfl
    · unfold sellerWithdrawLive
      rw [h]
      rfl

/-- C7 witness: the amended statement applied to the non-finite amount of
the counterexample (third conjunct, showing the 400 response and the empty
effect trace for a concrete rejected request). -/
theorem C7_validation_fail_fast_no_side_effects_witness :
    sellerWithdrawLive "s1" JsNum.inf "0712345678"
        ⟨[], fun _ => none, []⟩ 0 (.fail "x") =
      (validationResponse .invalidPhone, []) ∧
    (validationResponse .invalidPhone).status = 400 ∧
    applyEvents ⟨[], fun _ => none, []⟩
      (sellerWithdrawLive "s1" JsNum.inf "0712345678"
        ⟨[], fun _ => none, []⟩ 0 (.fail "x")).2 = ⟨[], fun _ => none, []⟩ :=
  C7_validation_fail_fast_no_side_effects.2.2 "s1" "0712345678" JsNum.inf
    .invalidPhone ⟨[], fun _ => none, []⟩ 0 (.fail "x")
    (by simp +decide [validateWithdrawal, parsePositiveNumber, JsNum.isNaNb,
      JsNum.gtZero, isValidPhone])

/-- C1 counterexample: under the stored-counter policy (seller revenue
100, withdrawal 50, payout dispatch fails) the seller balance ends at 50 —
it is NOT re-credited back to its pre-request value 100 — and the
Withdrawal Record ends in PAYOUT_FAILED, not PAYOUT_FAILED_REVERSED; no
compensating transaction exists in any revision of the source. -/
theorem C1_counterexample_balance_not_restored :
    let r := sellerWithdrawStored "s1" (JsNum.fin 50) "254712345678"
      ⟨fun s => if s = "s1" then some 100 else none, []⟩ 0 (.fail "provider down")
    r.2.users "s1" = some 50 ∧
      r.2.withdrawals.map (fun p => p.2.status) = [WStatus.PAYOUT_FAILED] ∧
      r.1.status = 502 ∧ (some (50 : ℚ) ≠ some (100 : ℚ)) ∧
      WStatus.PAYOUT_FAILED ≠ WStatus.PAYOUT_FAILED_REVERSED := by
  refine ⟨?_, ?_, ?_, ?_, ?_⟩
  · show (sellerWithdrawStored _ _ _ _ _ _).2.users "s1" = some 50
    simp +decide only [sellerWithdrawStored, parsePositiveNumberFinite, isValidPhone]
    norm_num [round2]
  · show (sellerWithdrawStored _ _ _ _ _ _).2.withdrawals.map _ = _
    simp +decide only [sellerWithdrawStored, parsePositiveNumberFinite, isValidPhone]
  · show (sellerWithdrawStored _ _ _ _ _ _).1.status = 502
    simp +decide only [sellerWithdrawStored, parsePositiveNumberFinite, isValidPhone]
  · simp
  · simp

/-- C1 (amended): under the stored-counter policy, when the payout
dispatch fails after the balance deduction the handler returns 502 and
marks the record PAYOUT_FAILED with the provider error stored, but runs NO
compensating transaction: the seller stored balance stays at the deducted
value round2(revenue - amount) and no record is ever marked
PAYOUT_FAILED_REVERSED (the source comments that manual reversal may be
needed). -/
theorem C1_stored_payout_failure_keeps_deduction
    (sellerId phone : String) (amountRaw : JsNum) (st : UserStoreState)
    (newId : Nat) (err : String) (amount rev : ℚ)
    (hs : sellerId ≠ "") (hp : isValidPhone phone = true)
    (ha : parsePositiveNumberFinite amountRaw = some amount)
    (hrev : st.users sellerId = some rev) (hbal : ¬ rev < amount)
    (hfresh : ∀ pr ∈ st.withdrawals, pr.1 ≠ newId) :
    let r := sellerWithdrawStored sellerId amountRaw phone st newId (.fail err)
    r.1.status = 502 ∧
      r.2.users sellerId = some (round2 (rev - amount)) ∧
      r.2.withdrawals = st.withdrawals ++
        [(newId, { sellerId := sellerId, amount := amount,
                   feeAmount := flatFeeAmount amount,
                   netPayout := flatNetPayoutAmount amount,
                   phoneNumber := phone, status := .PAYOUT_FAILED,
                   trackingId := none, intasendError := some err })] := by
  intro r
  have hmap : st.withdrawals.map (fun p =>
      if p.1 = newId then
        (p.1, { p.2 with
                status := WStatus.PAYOUT_FAILED,
                intasendError := some err })
      else p) = st.withdrawals := by
    rw [List.map_congr_left (fun pr hpr => if_neg (hfresh pr hpr))]
    exact List.map_id' st.withdrawals
  have hr : r = sellerWithdrawStored sellerId amountRaw phone st newId (.fail err) := rfl
  rw [hr]
  unfold sellerWithdrawStored
  rw [if_neg hs, ha]
  simp only [hp, Bool.not_true, Bool.false_eq_true, if_false, hrev, if_neg hbal]
  refine ⟨by simp, by simp, ?_⟩
  simp only [List.map_append, hmap]
  simp [WithdrawalRec.mk.injEq]

/-- C1 witness: the amended statement applied at seller revenue 100,
withdrawal 50 and a failing payout. -/
theorem C1_stored_payout_failure_keeps_deduction_witness :
    let r := sellerWithdrawStored "s1" (JsNum.fin 50) "254712345678"
      ⟨fun s => if s = "s1" then some 100 else none, []⟩ 7 (.fail "provider down")
    r.1.status = 502 ∧
      r.2.users "s1" = some (round2 (100 - 50)) ∧
      r.2.withdrawals = [] ++
        [(7, { sellerId := "s1", amount := 50,
               feeAmount := flatFeeAmount 50,
               netPayout := flatNetPayoutAmount 50,
               phoneNumber := "254712345678", status := .PAYOUT_FAILED,
               trackingId := none, intasendError := some "provider down" })] :=
  C1_stored_payout_failure_keeps_deduction "s1" "254712345678" (JsNum.fin 50)
    ⟨fun s => if s = "s1" then some 100 else none, []⟩ 7 "provider down" 50 100
    (by decide) (by decide) (by norm_num [parsePositiveNumberFinite])
    (by simp) (by norm_num) (by simp)

/-- C9 counterexample: when the payout dispatch fails, the 502 response of
the live revision is exactly success false with the constant provider
error message and NO data object, so it does not include the withdrawal
record identifier; the stored-counter revision behaves the same.  The
record identifier appears only in the 200 success body. -/
theorem C9_counterexample_502_response_has_no_id :
    (sellerWithdrawLive "s1" (JsNum.fin 50) "254712345678"
        ⟨[⟨["s1"], "paid",
           .arr [.obj [("sellerId", .str "s1"), ("price", .num 100),
                       ("quantity", .num 1)]]⟩],
         fun _ => none, []⟩ 3 (.fail "provider down")).1 =
      ⟨502, false, "Payout provider error", none⟩ ∧
    (sellerWithdrawStored "s1" (JsNum.fin 50) "254712345678"
        ⟨fun s => if s = "s1" then some 100 else none, []⟩ 3
        (.fail "provider down")).1 =
      ⟨502, false,
        "Payout provider error. Withdrawal created but payout failed.", none⟩ := by
  constructor
  · have hval : validateWithdrawal "s1" (JsNum.fin 50) "254712345678" = .ok 50 := by
      rw [validateWithdrawal_ok_iff]
      refine ⟨by simp, rfl, by norm_num, by decide, ?_⟩
      norm_num [calculateTotalFee, getTieredFixedFee, round2, AGENCY_FEE_RATE,
        WITHDRAWAL_THRESHOLD, FIXED_FEE_BELOW_THRESHOLD, FIXED_FEE_ABOVE_THRESHOLD]
    unfold sellerWithdrawLive
    rw [hval]
    simp +decide only [resolveAvailableBalance, liveTotalRevenue,
      orderItemsRevenue, itemContribution, JVal.falsy, JVal.getField,
      JVal.isStrictEqStr, numberOr0, List.filter, List.map, List.sum,
      List.find?]
    norm_num [tieredNetPayoutAmount, calculateTotalFee, getTieredFixedFee,
      round2, AGENCY_FEE_RATE, WITHDRAWAL_THRESHOLD, FIXED_FEE_BELOW_THRESHOLD,
      FIXED_FEE_ABOVE_THRESHOLD]
  · simp +decide only [sellerWithdrawStored, parsePositiveNumberFinite, isValidPhone]

/-- C9 (amended): after the Withdrawal Record has been created (the run
emits events), a payout dispatch failure produces the 502 gateway response
with success false and NO data — the withdrawal id is not included in the
failure body of either revision — while the 200 success body does carry
the withdrawal id. -/
theorem C9_payout_failure_response (s p : String) (a : JsNum)
    (st : StoreState) (newId : Nat) (err : String) (tid : Option String)
    (hfail : (sellerWithdrawLive s a p st newId (.fail err)).2 ≠ [])
    (hok : (sellerWithdrawLive s a p st newId (.ok tid)).2 ≠ []) :
    (sellerWithdrawLive s a p st newId (.fail err)).1 =
      ⟨502, false, "Payout provider error", none⟩ ∧
    (sellerWithdrawLive s a p st newId (.fail err)).1.data = none ∧
    (∃ d, (sellerWithdrawLive s a p st newId (.ok tid)).1.data = some d ∧
      d.withdrawalId = some newId) ∧
    (∀ (st2 : UserStoreState),
      (sellerWithdrawStored s a p st2 newId (.fail err)).1.status = 502 →
        (sellerWithdrawStored s a p st2 newId (.fail err)).1.data = none) := by
  refine ⟨?_, ?_, ?_, ?_⟩
  · unfold sellerWithdrawLive at hfail ⊢
    cases hv : validateWithdrawal s a p with
    | error e => rw [hv] at hfail; simp at hfail
    | ok q =>
      rw [hv] at hfail
      dsimp only at hfail ⊢
      split_ifs at hfail ⊢ <;> simp_all
  · unfold sellerWithdrawLive at hfail ⊢
    cases hv : validateWithdrawal s a p with
    | error e => rw [hv] at hfail; simp at hfail
    | ok q =>
      rw [hv] at hfail
      dsimp only at hfail ⊢
      split_ifs at hfail ⊢ <;> simp_all
  · unfold sellerWithdrawLive at hok ⊢
    cases hv : validateWithdrawal s a p with
    | error e => rw [hv] at hok; simp at hok
    | ok q =>
      rw [hv] at hok
      dsimp only at hok ⊢
      split_ifs at hok ⊢ <;> simp_all
  · intro st2 _
    unfold sellerWithdrawStored
    rcases parsePositiveNumberFinite a with _ | q <;>
      rcases st2.users s with _ | rev <;>
        dsimp only <;> split_ifs <;> rfl

/-- C9 witness: the amended statement applied at a store where the seller
has one paid order of value 100 and withdraws 50 (live revision), and a
stored-counter store with revenue 100. -/
theorem C9_payout_failure_response_witness :
    (sellerWithdrawLive "s1" (JsNum.fin 50) "254712345678"
        ⟨[⟨["s1"], "paid",
           .arr [.obj [("sellerId", .str "s1"), ("price", .num 100),
                       ("quantity", .num 1)]]⟩],
         fun _ => none, []⟩ 3 (.fail "boom")).1 =
      ⟨502, false, "Payout provider error", none⟩ ∧
    (sellerWithdrawLive "s1" (JsNum.fin 50) "254712345678"
        ⟨[⟨["s1"], "paid",
           .arr [.obj [("sellerId", .str "s1"), ("price", .num 100),
                       ("quantity", .num 1)]]⟩],
         fun _ => none, []⟩ 3 (.fail "boom")).1.data = none ∧
    (∃ d, (sellerWithdrawLive "s1" (JsNum.fin 50) "254712345678"
        ⟨[⟨["s1"], "paid",
           .arr [.obj [("sellerId", .str "s1"), ("price", .num 100),
                       ("quantity", .num 1)]]⟩],
         fun _ => none, []⟩ 3 (.ok (some "T1"))).1.data = some d ∧
      d.withdrawalId = some 3) ∧
    (∀ (st2 : UserStoreState),
      (sellerWithdrawStored "s1" (JsNum.fin 50) "254712345678" st2 3
          (.fail "boom")).1.status = 502 →
        (sellerWithdrawStored "s1" (JsNum.fin 50) "254712345678" st2 3
          (.fail "boom")).1.data = none) := by
  have hval : validateWithdrawal "s1" (JsNum.fin 50) "254712345678" = .ok 50 := by
    rw [validateWithdrawal_ok_iff]
    refine ⟨by simp, rfl, by norm_num, by decide, ?_⟩
    norm_num [calculateTotalFee, getTieredFixedFee, round2, AGENCY_FEE_RATE,
      WITHDRAWAL_THRESHOLD, FIXED_FEE_BELOW_THRESHOLD, FIXED_FEE_ABOVE_THRESHOLD]
  refine C9_payout_failure_response "s1" "254712345678" (JsNum.fin 50) _ 3
    "boom" (some "T1") ?_ ?_
  all_goals
    unfold sellerWithdrawLive
    rw [hval]
    simp +decide only [resolveAvailableBalance, liveTotalRevenue,
      orderItemsRevenue, itemContribution, JVal.falsy, JVal.getField,
      JVal.isStrictEqStr, numberOr0, List.filter, List.map, List.sum,
      List.find?]
    norm_num [tieredNetPayoutAmount, calculateTotalFee, getTieredFixedFee,
      round2, AGENCY_FEE_RATE, WITHDRAWAL_THRESHOLD, FIXED_FEE_BELOW_THRESHOLD,
      FIXED_FEE_ABOVE_THRESHOLD] <;> simp

/-- C3: for every withdrawal request that passes input validation, the
request fails with InsufficientBalance exactly when the requested amount
strictly exceeds the resolved available balance (a request for exactly the
balance passes the check), and such a failure performs no writes: the live
revision emits no event (no record, no balance or ledger change) and the
stored-counter revision returns the store unchanged (its transaction
aborts). -/
theorem C3_insufficient_balance_iff_and_no_writes
    (s p : String) (a : JsNum) (newId : Nat) (outcome : PayoutOutcome) :
    (∀ (st : StoreState) (q : ℚ), validateWithdrawal s a p = .ok q →
      (((sellerWithdrawLive s a p st newId outcome).1 =
          ⟨400, false, "Insufficient balance", none⟩) ↔
        resolveAvailableBalance s st.orders st.sellerLedgers < q) ∧
      (resolveAvailableBalance s st.orders st.sellerLedgers < q →
        (sellerWithdrawLive s a p st newId outcome).2 = [] ∧
        applyEvents st (sellerWithdrawLive s a p st newId outcome).2 = st)) ∧
    (∀ (st2 : UserStoreState) (q rev : ℚ), s ≠ "" →
      parsePositiveNumberFinite a = some q → isValidPhone p = true →
      st2.users s = some rev →
      (((sellerWithdrawStored s a p st2 newId outcome).1 =
          ⟨400, false, "Insufficient balance.", none⟩) ↔ rev < q) ∧
      (rev < q → (sellerWithdrawStored s a p st2 newId outcome).2 = st2)) := by
  constructor
  · intro st q hv
    unfold sellerWithdrawLive
    rw [hv]
    dsimp only
    by_cases hb : resolveAvailableBalance s st.orders st.sellerLedgers < q
    · rw [if_pos hb]
      exact ⟨by simp [hb], fun _ => ⟨rfl, rfl⟩⟩
    · rw [if_neg hb]
      refine ⟨?_, fun hcon => absurd hcon hb⟩
      simp only [hb, iff_false]
      by_cases hn : round2 (q - calculateTotalFee q) ≤ 0
      · rw [if_pos hn]
        simp
      · rw [if_neg hn]
        cases outcome <;> simp
  · intro st2 q rev hs hpf hp hu
    unfold sellerWithdrawStored
    rw [if_neg hs, hpf]
    simp only [hp, Bool.not_true, Bool.false_eq_true, if_false, hu]
    by_cases hb : rev < q
    · rw [if_pos hb]
      exact ⟨by simp [hb], fun _ => rfl⟩
    · rw [if_neg hb]
      refine ⟨?_, fun hcon => absurd hcon hb⟩
      simp only [hb, iff_false]
      cases outcome <;> simp

/-- C3 witness: the claim applied to a live store with one paid order of
value 100 and a stored-counter store with revenue 100, requesting 200
(insufficient) — hypotheses discharged at amount 200 with a valid phone. -/
theorem C3_insufficient_balance_iff_and_no_writes_witness :
    (((sellerWithdrawLive "s1" (JsNum.fin 200) "254712345678"
        ⟨[⟨["s1"], "paid",
           .arr [.obj [("sellerId", .str "s1"), ("price", .num 100),
                       ("quantity", .num 1)]]⟩],
         fun _ => none, []⟩ 4 (.fail "boom")).1 =
          ⟨400, false, "Insufficient balance", none⟩) ↔
      resolveAvailableBalance "s1"
        [⟨["s1"], "paid",
          .arr [.obj [("sellerId", .str "s1"), ("price", .num 100),
                      ("quantity", .num 1)]]⟩] (fun _ => none) < 200) ∧
    (resolveAvailableBalance "s1"
        [⟨["s1"], "paid",
          .arr [.obj [("sellerId", .str "s1"), ("price", .num 100),
                      ("quantity", .num 1)]]⟩] (fun _ => none) < 200 →
      (sellerWithdrawLive "s1" (JsNum.fin 200) "254712345678"
        ⟨[⟨["s1"], "paid",
           .arr [.obj [("sellerId", .str "s1"), ("price", .num 100),
                       ("quantity", .num 1)]]⟩],
         fun _ => none, []⟩ 4 (.fail "boom")).2 = [] ∧
      applyEvents
        ⟨[⟨["s1"], "paid",
           .arr [.obj [("sellerId", .str "s1"), ("price", .num 100),
                       ("quantity", .num 1)]]⟩],
         fun _ => none, []⟩
        (sellerWithdrawLive "s1" (JsNum.fin 200) "254712345678"
          ⟨[⟨["s1"], "paid",
             .arr [.obj [("sellerId", .str "s1"), ("price", .num 100),
                         ("quantity", .num 1)]]⟩],
           fun _ => none, []⟩ 4 (.fail "boom")).2 =
        ⟨[⟨["s1"], "paid",
           .arr [.obj [("sellerId", .str "s1"), ("price", .num 100),
                       ("quantity", .num 1)]]⟩],
         fun _ => none, []⟩) ∧
    (((sellerWithdrawStored "s1" (JsNum.fin 200) "254712345678"
        ⟨fun s => if s = "s1" then some 100 else none, []⟩ 4 (.fail "boom")).1 =
          ⟨400, false, "Insufficient balance.", none⟩) ↔ (100 : ℚ) < 200) ∧
    ((100 : ℚ) < 200 →
      (sellerWithdrawStored "s1" (JsNum.fin 200) "254712345678"
        ⟨fun s => if s = "s1" then some 100 else none, []⟩ 4 (.fail "boom")).2 =
      ⟨fun s => if s = "s1" then some 100 else none, []⟩) := by
  have h := C3_insufficient_balance_iff_and_no_writes "s1" "254712345678"
    (JsNum.fin 200) 4 (.fail "boom")
  have h1 := h.1
    ⟨[⟨["s1"], "paid",
       .arr [.obj [("sellerId", .str "s1"), ("price", .num 100),
                   ("quantity", .num 1)]]⟩],
     fun _ => none, []⟩ 200
    (by
      rw [validateWithdrawal_ok_iff]
      refine ⟨by simp, rfl, by norm_num, by decide, ?_⟩
      norm_num [calculateTotalFee, getTieredFixedFee, round2, AGENCY_FEE_RATE,
        WITHDRAWAL_THRESHOLD, FIXED_FEE_BELOW_THRESHOLD,
        FIXED_FEE_ABOVE_THRESHOLD])
  have h2 := h.2 ⟨fun s => if s = "s1" then some 100 else none, []⟩ 200 100
    (by decide) (by norm_num [parsePositiveNumberFinite]) (by decide) (by simp)
  exact ⟨h1.1, h1.2, h2.1, h2.2⟩

/-- C4: in the live revision every Withdrawal Record is created with
status PENDING_PAYOUT strictly before the external payout call, and its
status is then updated exactly once — to PAYOUT_INITIATED with the
provider tracking id on success, or to PAYOUT_FAILED with the error detail
on failure; no further status write follows and no run ever deletes a
record. -/
theorem C4_record_lifecycle (s p : String) (a : JsNum) (st : StoreState)
    (newId : Nat) (err : String) (tid : Option String) :
    ((sellerWithdrawLive s a p st newId (.fail err)).2 = [] ∨
      ∃ rec1, rec1.status = WStatus.PENDING_PAYOUT ∧
        (sellerWithdrawLive s a p st newId (.fail err)).2 =
          [.createWithdrawal newId rec1, .payoutCall p rec1.netPayout,
           .updateStatus newId .PAYOUT_FAILED none (some err)]) ∧
    ((sellerWithdrawLive s a p st newId (.ok tid)).2 = [] ∨
      ∃ rec1, rec1.status = WStatus.PENDING_PAYOUT ∧
        (sellerWithdrawLive s a p st newId (.ok tid)).2 =
          [.createWithdrawal newId rec1, .payoutCall p rec1.netPayout,
           .updateStatus newId .PAYOUT_INITIATED tid none,
           .ledgerIncrement s rec1.amount]) ∧
    (∀ (i : Nat) (outcome : PayoutOutcome),
      Event.deleteWithdrawal i ∉ (sellerWithdrawLive s a p st newId outcome).2) := by
  refine ⟨?_, ?_, ?_⟩
  · unfold sellerWithdrawLive
    cases hv : validateWithdrawal s a p with
    | error e => exact Or.inl rfl
    | ok q =>
      dsimp only
      by_cases hb : resolveAvailableBalance s st.orders st.sellerLedgers < q
      · rw [if_pos hb]
        exact Or.inl rfl
      · rw [if_neg hb]
        by_cases hn : round2 (q - calculateTotalFee q) ≤ 0
        · rw [if_pos hn]
          exact Or.inl rfl
        · rw [if_neg hn]
          exact Or.inr ⟨_, rfl, rfl⟩
  · unfold sellerWithdrawLive
    cases hv : validateWithdrawal s a p with
    | error e => exact Or.inl rfl
    | ok q =>
      dsimp only
      by_cases hb : resolveAvailableBalance s st.orders st.sellerLedgers < q
      · rw [if_pos hb]
        exact Or.inl rfl
      · rw [if_neg hb]
        by_cases hn : round2 (q - calculateTotalFee q) ≤ 0
        · rw [if_pos hn]
          exact Or.inl rfl
        · rw [if_neg hn]
          exact Or.inr ⟨_, rfl, rfl⟩
  · intro i outcome
    unfold sellerWithdrawLive
    cases hv : validateWithdrawal s a p with
    | error e => simp
    | ok q =>
      dsimp only
      by_cases hb : resolveAvailableBalance s st.orders st.sellerLedgers < q
      · rw [if_pos hb]
        simp
      · rw [if_neg hb]
        by_cases hn : round2 (q - calculateTotalFee q) ≤ 0
        · rw [if_pos hn]
          simp
        · rw [if_neg hn]
          cases outcome <;> simp

/-- C5: in the live revision the ledger `totalWithdrawn` is written only
after a successful payout dispatch: a failed dispatch emits no ledger
increment, a successful run emits exactly one increment — by the gross
requested amount, placed after the PAYOUT_INITIATED update — and applying
any run of the handler never decreases any seller accumulated
`totalWithdrawn`. -/
theorem C5_ledger_increment_only_after_success (s p : String) (a : JsNum)
    (st : StoreState) (newId : Nat) (err : String) (tid : Option String) :
    (∀ (sid : String) (amt : ℚ),
      Event.ledgerIncrement sid amt ∉
        (sellerWithdrawLive s a p st newId (.fail err)).2) ∧
    ((sellerWithdrawLive s a p st newId (.ok tid)).2 = [] ∨
      ∃ q, validateWithdrawal s a p = .ok q ∧
        (sellerWithdrawLive s a p st newId (.ok tid)).2 =
          [.createWithdrawal newId
             ⟨s, q, calculateTotalFee q, tieredNetPayoutAmount q, p,
              .PENDING_PAYOUT, none, none⟩,
           .payoutCall p (tieredNetPayoutAmount q),
           .updateStatus newId .PAYOUT_INITIATED tid none,
           .ledgerIncrement s q]) ∧
    (∀ (outcome : PayoutOutcome) (sid : String),
      (st.sellerLedgers sid).getD 0 ≤
        ((applyEvents st
          (sellerWithdrawLive s a p st newId outcome).2).sellerLedgers sid).getD 0) := by
  refine ⟨?_, ?_, ?_⟩
  · intro sid amt
    unfold sellerWithdrawLive
    cases hv : validateWithdrawal s a p with
    | error e => simp
    | ok q =>
      dsimp only
      by_cases hb : resolveAvailableBalance s st.orders st.sellerLedgers < q
      · rw [if_pos hb]
        simp
      · rw [if_neg hb]
        by_cases hn : round2 (q - calculateTotalFee q) ≤ 0
        · rw [if_pos hn]
          simp
        · rw [if_neg hn]
          simp
  · unfold sellerWithdrawLive
    cases hv : validateWithdrawal s a p with
    | error e => exact Or.inl rfl
    | ok q =>
      dsimp only
      by_cases hb : resolveAvailableBalance s st.orders st.sellerLedgers < q
      · rw [if_pos hb]
        exact Or.inl rfl
      · rw [if_neg hb]
        by_cases hn : round2 (q - calculateTotalFee q) ≤ 0
        · rw [if_pos hn]
          exact Or.inl rfl
        · rw [if_neg hn]
          exact Or.inr ⟨q, rfl, rfl⟩
  · intro outcome sid
    unfold sellerWithdrawLive
    cases hv : validateWithdrawal s a p with
    | error e => simp [applyEvents]
    | ok q =>
      have hq : 0 < q := ((validateWithdrawal_ok_iff s p a q).mp hv).2.2.1
      dsimp only
      by_cases hb : resolveAvailableBalance s st.orders st.sellerLedgers < q
      · rw [if_pos hb]
        simp [applyEvents]
      · rw [if_neg hb]
        by_cases hn : round2 (q - calculateTotalFee q) ≤ 0
        · rw [if_pos hn]
          simp [applyEvents]
        · rw [if_neg hn]
          cases outcome with
          | fail e => simp [applyEvents, applyEvent]
          | ok t =>
            simp only [applyEvents, applyEvent, List.foldl]
            split_ifs with hsid
            · subst hsid
              simp
              linarith
            · simp

/-- Shape test: is the dynamic value an object. -/
def JVal.isObjShape : JVal → Bool
  | .obj _ => true
  | _ => false

/-- A non-object line item never contributes: field access on it yields
`undefined`, which is never strictly equal to the seller id string. -/
lemma itemContribution_of_not_obj (s : String) (v : JVal)
    (h : v.isObjShape = false) : itemContribution s v = 0 := by
  cases v <;> simp_all [itemContribution, JVal.getField, JVal.isStrictEqStr,
    JVal.isObjShape]

/-- C8 counterexample: an order whose `items` field is a single bare item
object (it carries its own `sellerId`, `price`, `quantity` fields) is
iterated by the code as if it were a keyed mapping — `Object.values`
yields the scalar field values, none of which carries a sellerId — so it
contributes 0 to the seller revenue, while the specification resolver
(which handles the single-bare-item shape) credits price times quantity,
here 5 times 2 = 10. -/
theorem C8_counterexample_bare_item_contributes_zero :
    orderItemsRevenue "s1"
      (.obj [("sellerId", .str "s1"), ("price", .num 5), ("quantity", .num 2)]) = 0 ∧
    orderItemsRevenueSpec "s1"
      (.obj [("sellerId", .str "s1"), ("price", .num 5), ("quantity", .num 2)]) = 10 := by
  constructor
  · simp +decide [orderItemsRevenue, itemContribution, JVal.falsy,
      JVal.getField, JVal.isStrictEqStr, numberOr0, List.find?]
  · simp +decide [orderItemsRevenueSpec, itemContribution, JVal.falsy,
      JVal.getField, JVal.isStrictEqStr, numberOr0, List.find?]
    norm_num

/-- C8 (amended): the live balance resolver sums price times quantity over
the line items of paid orders of the seller and subtracts the ledger
`totalWithdrawn`, handling items encoded as an array or as a keyed object
(agreeing with the specification resolver on those shapes); a single bare
item object, however, is iterated as a keyed mapping and contributes 0 (an
object all of whose values are non-objects contributes 0), and a bare
non-object item also contributes 0; a seller with zero paid orders
resolves to balance 0 (not an error), and a missing or malformed price or
quantity contributes 0 — the resolver is a total function and never
throws. -/
theorem C8_balance_resolver_shapes :
    (∀ (s : String) (l : List JVal),
      orderItemsRevenue s (.arr l) = orderItemsRevenueSpec s (.arr l)) ∧
    (∀ (s : String) (fields : List (String × JVal)),
      fields.find? (fun pr => pr.1 = "sellerId") = none →
        orderItemsRevenue s (.obj fields) = orderItemsRevenueSpec s (.obj fields)) ∧
    (∀ (s : String) (fields : List (String × JVal)),
      (∀ pr ∈ fields, pr.2.isObjShape = false) →
        orderItemsRevenue s (.obj fields) = 0) ∧
    (∀ s : String, liveTotalRevenue s [] = 0 ∧
      resolveAvailableBalance s [] (fun _ => none) = 0) ∧
    (∀ (s bad : String) (w : JVal),
      itemContribution s
        (.obj [("sellerId", .str s), ("price", .str bad), ("quantity", w)]) = 0) ∧
    (∀ (s : String) (v : JVal),
      itemContribution s
        (.obj [("sellerId", .str s), ("price", v), ("quantity", .vnull)]) = 0) ∧
    (∀ (s : String) (orders : List MarketOrder) (ledg : String → Option ℚ),
      resolveAvailableBalance s orders ledg =
        liveTotalRevenue s orders - (ledg s).getD 0) := by
  refine ⟨?_, ?_, ?_, ?_, ?_, ?_, fun s orders ledg => rfl⟩
  · intro s l
    simp [orderItemsRevenue, orderItemsRevenueSpec, JVal.falsy]
  · intro s fields h
    simp [orderItemsRevenue, orderItemsRevenueSpec, JVal.falsy, h]
  · intro s fields h
    simp only [orderItemsRevenue, JVal.falsy, Bool.false_eq_true, if_false]
    refine List.sum_eq_zero ?_
    intro x hx
    simp only [List.mem_map] at hx
    obtain ⟨pr, hpr, rfl⟩ := hx
    exact itemContribution_of_not_obj s pr.2 (h pr hpr)
  · intro s
    refine ⟨rfl, ?_⟩
    simp [resolveAvailableBalance, liveTotalRevenue]
  · intro s bad w
    simp +decide [itemContribution, JVal.getField, JVal.isStrictEqStr,
      numberOr0, List.find?]
  · intro s v
    simp +decide [itemContribution, JVal.getField, JVal.isStrictEqStr,
      numberOr0, List.find?]

/-- C8 witness: the amended statement applied to a keyed-object items
encoding holding one real item (conjunct two, whose hypothesis — no
top-level `sellerId` key — is discharged by evaluation). -/
theorem C8_balance_resolver_shapes_witness :
    orderItemsRevenue "s1"
      (.obj [("k1", .obj [("sellerId", .str "s1"), ("price", .num 3),
                          ("quantity", .num 4)])]) =
    orderItemsRevenueSpec "s1"
      (.obj [("k1", .obj [("sellerId", .str "s1"), ("price", .num 3),
                          ("quantity", .num 4)])]) :=
  C8_balance_resolver_shapes.2.1 "s1"
    [("k1", .obj [("sellerId", .str "s1"), ("price", .num 3),
                  ("quantity", .num 4)])]
    (by simp +decide [List.find?])

/-! Concurrency model for two in-flight withdrawal requests of one
seller. -/

/-- Program counter of one in-flight live-policy withdrawal request:
`start` is before the non-transactional balance read and check
(`src/server.js` lines 373-429), `approved` is after the check passed but
before the remaining effects, `done b` is completion with success flag
`b`. -/
inductive ReqPhase where
  | start : ReqPhase
  | approved : ReqPhase
  | done : Bool → ReqPhase
deriving DecidableEq, Repr

/-- Shared state of two concurrent live-policy requests for one seller:
the contended ledger accumulator `totalWithdrawn` plus both request
phases.  The paid-order revenue is a parameter — order documents are not
written by the withdrawal flow. -/
structure RaceState where
  totalWithdrawn : ℚ
  phase1 : ReqPhase
  phase2 : ReqPhase
deriving DecidableEq, Repr

/-- One atomic step of a live-policy request with gross amount `amount`
against paid-order revenue `rev`: from `start` it performs the balance
read and check (`netAvailableRevenue < amount` rejects, lines 412-429),
otherwise the request is approved; from `approved` it performs the rest of
the handler with a successful payout, ending in the plain (merge, not
transactional) ledger increment by the gross amount (lines 491-500).
Nothing in the source places the read and the increment in one
transaction. -/
def liveReqStep (rev amount tw : ℚ) : ReqPhase → ReqPhase × ℚ
  | .start => if rev - tw < amount then (.done false, tw) else (.approved, tw)
  | .approved => (.done true, tw + amount)
  | .done b => (.done b, tw)

/-- Interleaved execution of two live-policy requests under a boolean
schedule: `true` advances request 1 by one atomic step, `false` advances
request 2. -/
def runRace (rev a1 a2 : ℚ) : List Bool → RaceState → RaceState
  | [], st => st
  | c :: rest, st =>
    if c then
      let pr := liveReqStep rev a1 st.totalWithdrawn st.phase1
      runRace rev a1 a2 rest ⟨pr.2, pr.1, st.phase2⟩
    else
      let pr := liveReqStep rev a2 st.totalWithdrawn st.phase2
      runRace rev a1 a2 rest ⟨pr.2, st.phase1, pr.1⟩

/-- The balance-check-and-deduct transaction body of the stored-counter
revision, `src/server.js` lines 1531-1551: abort (`none`) when the balance
is insufficient, otherwise commit the rounded new balance.  Firestore runs
these transactions serializably, so a concurrent execution is equivalent
to some sequential order of the two transaction bodies. -/
def storedWithdrawTxn (amount balance : ℚ) : Option ℚ :=
  if balance < amount then none else some (round2 (balance - amount))

/-- Cent precision is preserved by subtraction. -/
lemma isCents_sub {x y : ℚ} (hx : isCents x) (hy : isCents y) :
    isCents (x - y) := by
  obtain ⟨n, rfl⟩ := hx
  obtain ⟨m, rfl⟩ := hy
  exact ⟨n - m, by push_cast; ring⟩

/-- `round2` fixes every cent-precision value. -/
lemma round2_eq_self {x : ℚ} (h : isCents x) : round2 x = x := by
  obtain ⟨n, rfl⟩ := h
  exact round2_intCast_div n

/-- C10 counterexample: under the live-aggregation policy the balance read
and the ledger increment are not inside any transaction, and the
interleaving read1, read2, write1, write2 lets two concurrent requests of
100 each against revenue 100 (combined 200, exceeding the available
balance) BOTH finish successfully, with `totalWithdrawn` ending at 200. -/
theorem C10_counterexample_live_both_succeed :
    (100 : ℚ) + 100 > 100 - 0 ∧
    runRace 100 100 100 [true, false, true, false] ⟨0, .start, .start⟩ =
      ⟨200, .done true, .done true⟩ := by
  constructor
  · norm_num
  · norm_num [runRace, liveReqStep]

/-- C10 (amended): under the stored-counter policy the balance
read-then-write runs inside a serializable transaction, and in either
serial order of two transactions whose cent-precision amounts jointly
exceed the cent-precision balance the second one aborts — the two requests
never both succeed; under the live-aggregation policy the balance read and
the ledger increment are not transactional, and a concrete interleaving
lets two requests for 60 each against revenue 100 both succeed. -/
theorem C10_stored_transaction_serializes (B a1 a2 : ℚ)
    (hcB : isCents B) (hc1 : isCents a1) (hc2 : isCents a2)
    (hsum : B < a1 + a2) :
    (∀ B1, storedWithdrawTxn a1 B = some B1 →
      storedWithdrawTxn a2 B1 = none) ∧
    (∀ B2, storedWithdrawTxn a2 B = some B2 →
      storedWithdrawTxn a1 B2 = none) ∧
    runRace 100 60 60 [true, false, true, false] ⟨0, .start, .start⟩ =
      ⟨120, .done true, .done true⟩ := by
  refine ⟨?_, ?_, by norm_num [runRace, liveReqStep]⟩
  · intro B1 h1
    unfold storedWithdrawTxn at h1 ⊢
    by_cases hlt : B < a1
    · rw [if_pos hlt] at h1
      cases h1
    · rw [if_neg hlt] at h1
      injection h1 with h1
      subst h1
      rw [round2_eq_self (isCents_sub hcB hc1)]
      rw [if_pos (by linarith)]
  · intro B2 h2
    unfold storedWithdrawTxn at h2 ⊢
    by_cases hlt : B < a2
    · rw [if_pos hlt] at h2
      cases h2
    · rw [if_neg hlt] at h2
      injection h2 with h2
      subst h2
      rw [round2_eq_self (isCents_sub hcB hc2)]
      rw [if_pos (by linarith)]

/-- C10 witness: the amended statement applied at balance 100 and two
requests of 60 each. -/
theorem C10_stored_transaction_serializes_witness :
    (∀ B1, storedWithdrawTxn 60 100 = some B1 →
      storedWithdrawTxn 60 B1 = none) ∧
    (∀ B2, storedWithdrawTxn 60 100 = some B2 →
      storedWithdrawTxn 60 B2 = none) ∧
    runRace 100 60 60 [true, false, true, false] ⟨0, .start, .start⟩ =
      ⟨120, .done true, .done true⟩ :=
  C10_stored_transaction_serializes 100 60 60 ⟨10000, by norm_num⟩
    ⟨6000, by norm_num⟩ ⟨6000, by norm_num⟩ (by norm_num)

end MarketBackend
